import Mathlib

/-!
Verification development for the ArrowAI realtime chat client.

The definitions below are a shallow embedding of the client code:

* `AIWebSocketService` (file `src/frontend/src/components/chat/FileUpload.tsx`,
  second document, `src/services/websocketService.ts`): file validation,
  message dispatch (`handleMessage`), connection lifecycle (`connect`,
  `onclose` reconnect scheduling, `disconnect`, `newConversation`),
  send paths (`sendMessage`, `sendClarification`), and the file ingestion
  pipeline (`processFile`, `uploadFiles`).
* The `ChatContext` callback reducer
  (`src/frontend/src/contexts/ChatContext.tsx`): how each service callback
  updates the React session state (messages, artifacts, connection status,
  current node, loading flags, upload states).
* The turn grouper `groupedMessages`
  (`src/unnamed/part_005`, `ChatInterface.tsx`): the pure projection from
  the message log and artifact list to execution groups.

JavaScript machine-level details are embedded as follows: JS strings are
Lean `String`s (`split('.')` is re-implemented character by character as
`splitOnDot` to match the JS semantics exactly), JS numbers that hold byte
counts, close codes and delays are `Nat`, nondeterministic id generation
(`Date.now()` and `Math.random()`) is modelled by a deterministic counter
that supplies distinct ids, and the browser environment (socket readiness,
file-reader outcomes, timers) is passed explicitly.
-/

namespace ArrowAI

/-! ## Files and file validation (`AIWebSocketService.validateFile`) -/

/-- A browser `File` as far as the client reads it: `name`, `size` (bytes)
and `type` (MIME hint). -/
structure JSFile where
  name : String
  size : Nat
  type : String
deriving DecidableEq, Repr

/-- Character-level model of JavaScript `String.prototype.split('.')`:
splits a character list at every `'.'`, keeping empty segments, and always
returns at least one segment (like JS `split`, which never returns an
empty array). -/
def splitOnDot : List Char → List (List Char)
  | [] => [[]]
  | c :: rest =>
    match splitOnDot rest with
    | [] => [[]]
    | seg :: segs =>
      if c = '.' then [] :: seg :: segs else (c :: seg) :: segs

/-- `splitOnDot` never returns the empty list. -/
theorem splitOnDot_ne_nil (cs : List Char) : splitOnDot cs ≠ [] := by
  cases cs with
  | nil => simp [splitOnDot]
  | cons c rest =>
    simp only [splitOnDot]
    cases h : splitOnDot rest with
    | nil => simp
    | cons seg segs =>
      by_cases hc : c = '.' <;> simp [hc]

/-- If a name holds no `'.'`, splitting leaves it in one piece. -/
theorem splitOnDot_of_no_dot (cs : List Char) (h : '.' ∉ cs) :
    splitOnDot cs = [cs] := by
  induction cs with
  | nil => rfl
  | cons c rest ih =>
    simp only [List.mem_cons, not_or] at h
    simp only [splitOnDot, ih h.2]
    have hc : ¬ c = '.' := fun hcc => h.1 hcc.symm
    simp [hc]

/-- The extension the client extracts from a file name:
`'.' + file.name.split('.').pop()?.toLowerCase()` — the last dot-separated
segment, lowercased, with a dot prefixed. -/
def extensionOf (name : String) : String :=
  String.mk ('.' :: ((splitOnDot name.data).getLastD []).map Char.toLower)

/-- `AIWebSocketService.getSupportedFileTypes`: the allow-list of
extensions, verbatim from the source. -/
def getSupportedFileTypes : List String :=
  [".txt", ".md", ".csv", ".json", ".xml", ".yaml", ".yml",
   ".js", ".ts", ".jsx", ".tsx", ".py", ".java", ".cpp", ".c", ".h",
   ".css", ".html", ".php", ".rb", ".go", ".rs", ".swift", ".kt",
   ".xlsx", ".xls", ".pdf",
   ".jpg", ".jpeg", ".png", ".gif", ".bmp", ".svg", ".webp",
   ".zip", ".tar", ".gz"]

/-- `AIWebSocketService.isFileTypeSupported`. -/
def isFileTypeSupported (f : JSFile) : Bool :=
  getSupportedFileTypes.contains (extensionOf f.name)

/-- `AIWebSocketService.getMaxFileSize`: 10 MB in bytes. -/
def getMaxFileSize : Nat := 10 * 1024 * 1024

/-- Result shape of `validateFile`: `{ valid: true }` or
`{ valid: false, error }`. -/
inductive ValidationResult where
  | valid : ValidationResult
  | invalid (error : String) : ValidationResult
deriving DecidableEq, Repr

/-- The `valid` field of a validation result. -/
def ValidationResult.isValid : ValidationResult → Bool
  | .valid => true
  | .invalid _ => false

/-- `AIWebSocketService.validateFile`: rejects unsupported extensions
first, then files larger than `getMaxFileSize`. -/
def validateFile (f : JSFile) : ValidationResult :=
  if ¬ isFileTypeSupported f then
    .invalid ("File type not supported: " ++ f.name ++ ". Supported types: "
      ++ String.intercalate ", " getSupportedFileTypes)
  else if f.size > getMaxFileSize then
    .invalid ("File too large: " ++ f.name ++ ". Maximum size is "
      ++ toString (getMaxFileSize / (1024 * 1024)) ++ "MB")
  else .valid

theorem validateFile_valid_iff (f : JSFile) :
    (validateFile f).isValid = true ↔
      (isFileTypeSupported f = true ∧ f.size ≤ getMaxFileSize) := by
  by_cases hs : isFileTypeSupported f
  · by_cases hb : f.size > getMaxFileSize
    · simp [validateFile, hs, hb, ValidationResult.isValid, Nat.not_le.mpr hb]
    · simp [validateFile, hs, hb, ValidationResult.isValid, Nat.not_lt.mp hb]
  · simp [validateFile, hs, ValidationResult.isValid]

/-- Claim C3: `validateFile` returns valid exactly when the file's
extension is in the supported-extension allow-list and its size is at most
10 MB; in particular a 5 MB `a.py` is accepted, a 1 KB `a.exe` is
rejected, and an 11 MB `a.txt` is rejected. -/
theorem claim_c3_validateFile_spec :
    (∀ f : JSFile, (validateFile f).isValid = true ↔
        (isFileTypeSupported f = true ∧ f.size ≤ getMaxFileSize)) ∧
    validateFile ⟨"a.py", 5 * 1024 * 1024, ""⟩ = .valid ∧
    (validateFile ⟨"a.exe", 1024, ""⟩).isValid = false ∧
    (validateFile ⟨"a.txt", 11 * 1024 * 1024, ""⟩).isValid = false :=
  ⟨validateFile_valid_iff, by rfl, by rfl, by rfl⟩

/-- Claim C10, counterexample: the claim says a file whose name contains
no dot is always rejected, but a file literally named `txt` (no dot)
yields extension `.txt`, which is in the allow-list, and is accepted. -/
theorem claim_c10_counterexample :
    ("txt" : String).data.contains '.' = false ∧
    (validateFile ⟨"txt", 1, ""⟩).isValid = true := by
  exact ⟨by rfl, by rfl⟩

/-- Claim C10 as amended: for a file whose name contains no dot, the
extracted extension is `'.'` followed by the whole lowercased name, so the
file is accepted exactly when that string is in the allow-list (e.g. a
file named `txt` is accepted) and the size bound holds; otherwise it is
rejected. -/
theorem claim_c10_amended (f : JSFile) (h : '.' ∉ f.name.data) :
    (validateFile f).isValid = true ↔
      (getSupportedFileTypes.contains
          (String.mk ('.' :: f.name.data.map Char.toLower)) = true ∧
        f.size ≤ getMaxFileSize) := by
  rw [validateFile_valid_iff]
  unfold isFileTypeSupported extensionOf
  rw [splitOnDot_of_no_dot _ h]
  simp [List.getLastD]

/-- Witness for the amended C10 at the concrete file `txt` of 1 byte. -/
theorem claim_c10_amended_witness :
    ('.' ∉ ("txt" : String).data) ∧
      ((validateFile ⟨"txt", 1, ""⟩).isValid = true ↔
        (getSupportedFileTypes.contains
            (String.mk ('.' :: ("txt" : String).data.map Char.toLower)) = true ∧
          (1 : Nat) ≤ getMaxFileSize)) :=
  ⟨by decide, claim_c10_amended ⟨"txt", 1, ""⟩ (by decide)⟩

/-! ## Service callbacks and inbound message dispatch -/

/-- One entry of a `sandbox.artifacts` payload (`data.items`), with the
fields the `ChatContext.onArtifacts` callback reads. -/
structure ArtifactItem where
  filename : Option String
  itemName : Option String
  language : Option String
  itemType : Option String
  content : Option String
deriving DecidableEq, Repr

/-- One invocation of a `WebSocketCallbacks` member, with its arguments.
`handleMessage` and the connection handlers emit lists of these; the
`ChatContext` reducer consumes them. -/
inductive CallbackCall where
  | onNode (name : String) (step : Option Nat)
  | onClarify (question : String)
  | onTodos (markdown : String)
  | onCode (text : String)
  | onStdout (text : String)
  | onStderr (text : String)
  | onArtifacts (items : List ArtifactItem)
  | onAnswer (text : String)
  | onError (detail : String)
  | onConnect
  | onDisconnect
  | onFileUploadProgress (progress : Nat) (fileName : String)
  | onFileUploadComplete (fileName : String)
  | onFileUploadError (error : String) (fileName : String)
deriving DecidableEq, Repr

/-- A parsed `WebSocketMessage`: the `event` discriminator plus every
payload field any dispatch branch reads (`[key: string]: any` in the
source; absent fields read as defaults). -/
structure WSMessage where
  event : String
  name : String
  step : Option Nat
  question : String
  markdown : String
  text : String
  items : List ArtifactItem
  detail : String
  progress : Nat
  fileName : String
  error : String
deriving DecidableEq, Repr

/-- A `WSMessage` with every payload field empty, to be updated per frame. -/
def emptyWSMessage : WSMessage :=
  { event := "", name := "", step := none, question := "", markdown := "",
    text := "", items := [], detail := "", progress := 0, fileName := "",
    error := "" }

/-- `AIWebSocketService.handleMessage`: the `switch (data.event)` dispatch.
Each recognized discriminator invokes exactly one callback with its payload;
the `default` branch only logs (`console.log('Unhandled WebSocket event')`)
and invokes nothing. -/
def handleMessage (m : WSMessage) : List CallbackCall :=
  if m.event = "node" then [.onNode m.name m.step]
  else if m.event = "clarify" then [.onClarify m.question]
  else if m.event = "todos" then [.onTodos m.markdown]
  else if m.event = "code" then [.onCode m.text]
  else if m.event = "sandbox.stdout" then [.onStdout m.text]
  else if m.event = "sandbox.stderr" then [.onStderr m.text]
  else if m.event = "sandbox.artifacts" then [.onArtifacts m.items]
  else if m.event = "answer" then [.onAnswer m.text]
  else if m.event = "error" then [.onError m.detail]
  else if m.event = "file_upload_progress" then
    [.onFileUploadProgress m.progress m.fileName]
  else if m.event = "file_upload_complete" then
    [.onFileUploadComplete m.fileName]
  else if m.event = "file_upload_error" then
    [.onFileUploadError m.error m.fileName]
  else []

/-- The discriminators `handleMessage` recognizes. -/
def recognizedEvents : List String :=
  ["node", "clarify", "todos", "code", "sandbox.stdout", "sandbox.stderr",
   "sandbox.artifacts", "answer", "error", "file_upload_progress",
   "file_upload_complete", "file_upload_error"]

/-- A raw inbound frame as the `onmessage` handler sees it: either
`JSON.parse` fails, or it yields a `WSMessage`. -/
inductive InboundFrame where
  | malformed (raw : String)
  | parsed (m : WSMessage)
deriving DecidableEq, Repr

/-- A frame the client cannot interpret: unparsable JSON, or a parsed
message whose discriminator is not recognized. -/
def unrecognizedFrame : InboundFrame → Bool
  | .malformed _ => true
  | .parsed m => !(recognizedEvents.contains m.event)

/-! ## Connection lifecycle (`connect` / `onclose` / `disconnect`) -/

/-- Browser `WebSocket.readyState` values. -/
inductive ReadyState where
  | CONNECTING
  | OPEN
  | CLOSING
  | CLOSED
deriving DecidableEq, Repr

/-- One physical `WebSocket`: a distinguishing identity, the URL it was
opened with (which carries the `run_id`), and its ready state. -/
structure Socket where
  sockId : Nat
  url : String
  readyState : ReadyState
deriving DecidableEq, Repr

/-- The service's file-upload record (`FileUpload` interface in the
source): the original file, its metadata, and the read content. -/
structure FileUploadRec where
  file : JSFile
  name : String
  size : Nat
  type : String
  content : Option String
deriving DecidableEq, Repr

/-- The mutable fields of `AIWebSocketService`, plus the timers the
environment holds for it: `pendingReconnects` lists the delays of
`setTimeout` reconnect callbacks that have been scheduled but have not
fired, and `nextSockId` supplies fresh socket identities. -/
structure SvcState where
  ws : Option Socket
  baseUrl : String
  runId : String
  reconnectAttempts : Nat
  maxReconnectAttempts : Nat
  reconnectDelay : Nat
  uploadQueue : List (String × FileUploadRec)
  pendingReconnects : List Nat
  nextSockId : Nat
deriving DecidableEq, Repr

/-- The URL `connect` opens: `${baseUrl}/ws/assist?run_id=${runId}`. -/
def wsUrl (s : SvcState) : String :=
  s.baseUrl ++ "/ws/assist?run_id=" ++ s.runId

/-- `AIWebSocketService.connect`: opens a new `WebSocket` keyed by the
current `runId` and stores it in `this.ws` (the previous socket, if any,
is simply overwritten). -/
def connectSvc (s : SvcState) : SvcState :=
  { s with
    ws := some { sockId := s.nextSockId, url := wsUrl s,
                 readyState := .CONNECTING },
    nextSockId := s.nextSockId + 1 }

/-- The `onopen` handler: resets `reconnectAttempts` to 0 and fires
`onConnect` (the browser has moved the socket to `OPEN`). -/
def svcOnOpen (s : SvcState) : SvcState × List CallbackCall :=
  ({ s with
      reconnectAttempts := 0,
      ws := s.ws.map (fun sock => { sock with readyState := .OPEN }) },
    [.onConnect])

/-- The delay the `onclose` handler passes to `setTimeout`, if it
schedules a reconnect at all: only when the close code is not the clean
code 1000 and attempts remain, and then
`reconnectDelay * (reconnectAttempts + 1)` (the attempt counter is
incremented before the delay is computed). -/
def scheduledDelayOnClose (code : Nat) (s : SvcState) : Option Nat :=
  if code ≠ 1000 ∧ s.reconnectAttempts < s.maxReconnectAttempts then
    some (s.reconnectDelay * (s.reconnectAttempts + 1))
  else none

/-- The `onclose` handler: fires `onDisconnect`, then — unless the close
was clean or attempts are exhausted — increments `reconnectAttempts` and
schedules a reconnect timer. The socket object itself is left in place
(the browser has moved it to `CLOSED`); `this.ws` is not nulled here. -/
def svcOnClose (code : Nat) (s : SvcState) : SvcState × List CallbackCall :=
  let s0 := { s with
    ws := s.ws.map (fun sock => { sock with readyState := .CLOSED }) }
  match scheduledDelayOnClose code s with
  | some d =>
    ({ s0 with
        reconnectAttempts := s.reconnectAttempts + 1,
        pendingReconnects := s0.pendingReconnects ++ [d] },
      [.onDisconnect])
  | none => (s0, [.onDisconnect])

/-- A scheduled reconnect timer fires: its callback runs `this.connect()`
unconditionally — nothing in the source cancels or re-checks it. -/
def fireReconnect (s : SvcState) : SvcState :=
  match s.pendingReconnects with
  | [] => s
  | _ :: rest => connectSvc { s with pendingReconnects := rest }

/-- `AIWebSocketService.disconnect`: if a socket is held, `close(1000)` is
called on it and `this.ws` is nulled; the upload queue is cleared. No
timer handle is stored anywhere, so `pendingReconnects` is untouched. -/
def disconnectSvc (s : SvcState) : SvcState :=
  match s.ws with
  | some _ => { s with ws := none, uploadQueue := [] }
  | none => { s with uploadQueue := [] }

/-- `AIWebSocketService.newConversation`: generates a fresh `runId` (the
nondeterministic `generateRunId` result is passed in) and clears the
upload queue. Nothing else — in particular `this.ws` is untouched. -/
def newConversation (freshId : String) (s : SvcState) : SvcState :=
  { s with runId := freshId, uploadQueue := [] }

/-- `this.ws && this.ws.readyState === WebSocket.OPEN`. -/
def socketOpen (s : SvcState) : Bool :=
  match s.ws with
  | some sock => sock.readyState == ReadyState.OPEN
  | none => false

/-- The `onmessage` handler: `JSON.parse` failures are caught and only
logged; parsed messages go to `handleMessage`. Neither path touches the
service state or the socket. -/
def onMessageStep (s : SvcState) (fr : InboundFrame) :
    SvcState × List CallbackCall :=
  match fr with
  | .malformed _ => (s, [])
  | .parsed m => (s, handleMessage m)

/-! ## File ingestion (`processFile` / `uploadFiles`) and send paths -/

/-- The extensions of the text-reader regex
`/\.(txt|md|csv|json|js|ts|py|html|css|xml|yaml|yml)$/i`. -/
def textExtensions : List String :=
  ["txt", "md", "csv", "json", "js", "ts", "py", "html", "css", "xml",
   "yaml", "yml"]

/-- `s.startsWith(p)`, computed structurally on the character lists. -/
def strStartsWith (s p : String) : Bool :=
  p.data.isPrefixOf s.data

/-- `s.endsWith(p)`, computed structurally on the character lists. -/
def strEndsWith (s p : String) : Bool :=
  p.data.isSuffixOf s.data

/-- `s.toLowerCase()`, computed structurally on the character list. -/
def strToLower (s : String) : String :=
  String.mk (s.data.map Char.toLower)

/-- Whether a file name matches that regex: it ends, case-insensitively,
in a dot followed by one of the listed extensions. -/
def matchesTextExtension (name : String) : Bool :=
  textExtensions.any (fun e => strEndsWith (strToLower name) ("." ++ e))

/-- The text-versus-binary test of `processFile` (and of the outbound
`encoding` field): MIME type starts with `text/`, is one of three
`application/...` types, or the name matches the extension regex. -/
def isTextFile (f : JSFile) : Bool :=
  strStartsWith f.type "text/" ||
  f.type == "application/json" ||
  f.type == "application/javascript" ||
  f.type == "application/typescript" ||
  matchesTextExtension f.name

/-- The outcome of reading one file: `readFileAsText` for text files,
`readFileAsBase64` otherwise. The two readers are environment I/O,
passed in as functions from file to content-or-error. -/
def readResultOf (envText envB64 : JSFile → Except String String)
    (f : JSFile) : Except String String :=
  if isTextFile f then envText f else envB64 f

/-- `Map.set` on the upload queue: replace the value under an existing
key, else append. -/
def setAssoc (m : List (String × FileUploadRec)) (k : String)
    (v : FileUploadRec) : List (String × FileUploadRec) :=
  if m.any (fun p => p.1 == k) then
    m.map (fun p => if p.1 == k then (k, v) else p)
  else m ++ [(k, v)]

/-- The `FileUpload` record `processFile` builds for a successfully read
file. -/
def successRecord (f : JSFile) (content : String) : FileUploadRec :=
  { file := f, name := f.name, size := f.size, type := f.type,
    content := some content }

/-- `AIWebSocketService.processFile`: reads the file with the applicable
reader; on failure throws `Failed to read file ...`; on success stores the
record in the upload queue under `${Date.now()}_${file.name}` (the clock
value is passed in as `now`) and returns it. -/
def processFile (envText envB64 : JSFile → Except String String)
    (now : Nat) (s : SvcState) (f : JSFile) :
    Except String (SvcState × FileUploadRec) :=
  match readResultOf envText envB64 f with
  | .error e => .error ("Failed to read file " ++ f.name ++ ": " ++ e)
  | .ok content =>
    let fu := successRecord f content
    .ok ({ s with uploadQueue :=
            setAssoc s.uploadQueue (toString now ++ "_" ++ f.name) fu }, fu)

/-- `AIWebSocketService.uploadFiles`: iterates the batch in order; per
file it fires progress 0, then on success collects the processed record
and fires progress 100 and completion, and on failure fires only the
error callback for that file and moves on. Returns the final state, the
successfully processed records in iteration order, and the callback
trace. -/
def uploadFiles (envText envB64 : JSFile → Except String String) :
    Nat → SvcState → List JSFile →
      SvcState × List FileUploadRec × List CallbackCall
  | _, s, [] => (s, [], [])
  | now, s, f :: rest =>
    match processFile envText envB64 now s f with
    | .ok (s', fu) =>
      let r := uploadFiles envText envB64 (now + 1) s' rest
      (r.1, fu :: r.2.1,
        [.onFileUploadProgress 0 f.name, .onFileUploadProgress 100 f.name,
         .onFileUploadComplete f.name] ++ r.2.2)
    | .error e =>
      let r := uploadFiles envText envB64 (now + 1) s rest
      (r.1, r.2.1,
        [.onFileUploadProgress 0 f.name, .onFileUploadError e f.name]
          ++ r.2.2)

/-- The records of the files whose read succeeds, in batch order. -/
def successfulUploads (envText envB64 : JSFile → Except String String) :
    List JSFile → List FileUploadRec :=
  List.filterMap (fun f =>
    match readResultOf envText envB64 f with
    | .ok content => some (successRecord f content)
    | .error _ => none)

/-- The `(error, fileName)` pairs of the `onFileUploadError` invocations
in a callback trace. -/
def uploadErrorCalls : List CallbackCall → List (String × String)
  | [] => []
  | .onFileUploadError e n :: rest => (e, n) :: uploadErrorCalls rest
  | _ :: rest => uploadErrorCalls rest

/-- The error-callback pairs the pipeline should produce: one per failing
file, in batch order, with the `Failed to read file` message. -/
def expectedUploadErrors (envText envB64 : JSFile → Except String String) :
    List JSFile → List (String × String) :=
  List.filterMap (fun f =>
    match readResultOf envText envB64 f with
    | .error e =>
      some ("Failed to read file " ++ f.name ++ ": " ++ e, f.name)
    | .ok _ => none)

/-- One file of the outbound `user_message.files` array. -/
structure OutboundFile where
  name : String
  size : Nat
  type : String
  content : Option String
  encoding : String
deriving DecidableEq, Repr

/-- An outbound client→server message (`files` is empty for
clarifications, which send no `files` field). -/
structure OutboundMessage where
  type : String
  text : String
  files : List OutboundFile
deriving DecidableEq, Repr

/-- The `encoding` field computed in `sendMessage` for each processed
file (same test as `isTextFile`, applied to `f.file.type` and `f.name`). -/
def outboundEncoding (f : FileUploadRec) : String :=
  if strStartsWith f.file.type "text/" ||
      f.file.type == "application/json" ||
      f.file.type == "application/javascript" ||
      f.file.type == "application/typescript" ||
      matchesTextExtension f.name then "text" else "base64"

/-- The outbound message `sendMessage` serializes. -/
def mkUserMessage (text : String) (processed : List FileUploadRec) :
    OutboundMessage :=
  { type := "user_message", text := text,
    files := processed.map (fun f =>
      { name := f.name, size := f.size, type := f.type,
        content := f.content, encoding := outboundEncoding f }) }

/-- `AIWebSocketService.sendMessage`: if the socket is absent or not
`OPEN`, throws `WebSocket is not connected` before doing anything — the
state is unchanged, nothing is transmitted, nothing is queued. Otherwise
it processes the attachments and transmits one `user_message`. Returns
(state, transmitted messages, upload callbacks, thrown error). -/
def svcSendMessage (envText envB64 : JSFile → Except String String)
    (now : Nat) (s : SvcState) (text : String) (files : List JSFile) :
    SvcState × List OutboundMessage × List CallbackCall × Option String :=
  if socketOpen s = false then
    (s, [], [], some "WebSocket is not connected")
  else
    let r := uploadFiles envText envB64 now s files
    (r.1, [mkUserMessage text r.2.1], r.2.2, none)

/-- `AIWebSocketService.sendClarification`: same guard, then transmits a
plain `user_message` with the text. -/
def svcSendClarification (s : SvcState) (text : String) :
    SvcState × List OutboundMessage × Option String :=
  if socketOpen s = false then
    (s, [], some "WebSocket is not connected")
  else
    (s, [{ type := "user_message", text := text, files := [] }], none)

/-! ## ChatContext session state and callback reducer -/

/-- A chat `Message` (types/chat.ts), with the optional artifact fields.
`timestamp` is a logical clock value. -/
structure Message where
  id : String
  text : String
  isUser : Bool
  timestamp : Nat
  hasArtifact : Bool
  artifactType : Option String
  artifactContent : Option String
  artifactLanguage : Option String
  artifactFilename : Option String
deriving DecidableEq, Repr

/-- An `Artifact` (types/chat.ts). -/
structure Artifact where
  id : String
  type : String
  title : String
  content : String
  language : Option String
  filename : Option String
  messageId : Option String
deriving DecidableEq, Repr

/-- The `connectionStatus` union of `ChatContext`:
`'disconnected' | 'connecting' | 'connected' | 'error'` — note there is no
`failed` member. -/
inductive ConnectionStatus where
  | disconnected
  | connecting
  | connected
  | error
deriving DecidableEq, Repr

/-- Status of one `FileUploadState` entry. -/
inductive UploadStatus where
  | uploading
  | completed
  | error
deriving DecidableEq, Repr

/-- One `FileUploadState` entry of the context. -/
structure FileUploadState where
  id : String
  file : JSFile
  progress : Nat
  status : UploadStatus
  error : Option String
deriving DecidableEq, Repr

/-- The React state held by `ChatContextProvider` that the callbacks
touch. `nextId` is the deterministic stand-in for the `Date.now()` /
`Math.random()` id generators: each generated id consumes one counter
value, so ids are distinct. -/
structure CtxState where
  messages : List Message
  artifacts : List Artifact
  isLoading : Bool
  currentNode : Option String
  executionStep : Nat
  clarificationQuestion : Option String
  todos : Option String
  connectionStatus : ConnectionStatus
  isConnected : Bool
  activeArtifact : Option String
  fileUploads : List FileUploadState
  nextId : Nat
deriving DecidableEq, Repr

/-- The argument of `addMessage` (a `Message` minus `id`/`timestamp`). -/
structure MessageData where
  text : String
  isUser : Bool
  hasArtifact : Bool
  artifactType : Option String
  artifactContent : Option String
  artifactLanguage : Option String
  artifactFilename : Option String
deriving DecidableEq, Repr

/-- A message payload with only text set (the common case). -/
def plainMessage (text : String) (isUser : Bool) : MessageData :=
  { text := text, isUser := isUser, hasArtifact := false,
    artifactType := none, artifactContent := none,
    artifactLanguage := none, artifactFilename := none }

/-- JS `a || b` on two possibly-absent strings: an absent or empty `a`
falls through to `b` (itself normalized the same way). -/
def jsFirst (a b : Option String) : Option String :=
  match a with
  | some s => if s = "" then (match b with
      | some t => if t = "" then none else some t
      | none => none) else some s
  | none => match b with
    | some t => if t = "" then none else some t
    | none => none

/-- JS `o || dflt` producing a string: absent or empty `o` yields the
default. -/
def jsOrS (o : Option String) (dflt : String) : String :=
  match o with
  | some s => if s = "" then dflt else s
  | none => dflt

/-- `detectLanguageFromFilename` (ChatContext.tsx): lowercased last
dot-segment of the file name looked up in the language map; an empty
extension (falsy in JS) yields no language. -/
def languageMap : List (String × String) :=
  [("py", "python"), ("js", "javascript"), ("ts", "typescript"),
   ("jsx", "javascript"), ("tsx", "typescript"), ("java", "java"),
   ("cpp", "cpp"), ("c", "c"), ("cs", "csharp"), ("go", "go"),
   ("rs", "rust"), ("rb", "ruby"), ("php", "php"), ("swift", "swift"),
   ("kt", "kotlin"), ("scala", "scala"), ("r", "r"), ("sql", "sql"),
   ("sh", "bash"), ("bash", "bash"), ("yaml", "yaml"), ("yml", "yaml"),
   ("json", "json"), ("xml", "xml"), ("html", "html"), ("css", "css"),
   ("scss", "scss"), ("sass", "sass"), ("md", "markdown"), ("txt", "text")]

def detectLanguageFromFilename : Option String → Option String
  | none => none
  | some fn =>
    let ext := String.mk (((splitOnDot fn.data).getLastD []).map Char.toLower)
    if ext = "" then none
    else (languageMap.find? (fun p => p.1 == ext)).map (fun p => p.2)

/-- `ChatContext.addArtifact`: appends an artifact under a freshly
generated id. -/
def addArtifact (ctx : CtxState) (type title content : String)
    (language filename messageId : Option String) : CtxState :=
  { ctx with
    artifacts := ctx.artifacts ++
      [{ id := "artifact-" ++ toString ctx.nextId, type := type,
         title := title, content := content, language := language,
         filename := filename, messageId := messageId }],
    nextId := ctx.nextId + 1 }

/-- `ChatContext.addMessage`: appends the message under a fresh id; if it
carries an artifact with non-empty content, also builds the artifact
(whose stored id is generated a second time inside `addArtifact`) and
points `activeArtifact` at the id generated here — faithfully mirroring
that the source generates two distinct ids for the same artifact. -/
def addMessage (ctx : CtxState) (d : MessageData) : CtxState :=
  let mid := "msg-" ++ toString ctx.nextId
  let m : Message :=
    { id := mid, text := d.text, isUser := d.isUser,
      timestamp := ctx.nextId, hasArtifact := d.hasArtifact,
      artifactType := d.artifactType, artifactContent := d.artifactContent,
      artifactLanguage := d.artifactLanguage,
      artifactFilename := d.artifactFilename }
  let ctx1 :=
    { ctx with messages := ctx.messages ++ [m], nextId := ctx.nextId + 1 }
  if d.hasArtifact && (jsOrS d.artifactContent "" != "") then
    let title := jsOrS d.artifactFilename
      (jsOrS d.artifactType "Code" ++ " from message")
    let previewId := "artifact-" ++ toString ctx1.nextId
    let ctx2 := { ctx1 with nextId := ctx1.nextId + 1 }
    let ctx3 := addArtifact ctx2 (jsOrS d.artifactType "code") title
      (jsOrS d.artifactContent "") d.artifactLanguage d.artifactFilename
      (some mid)
    { ctx3 with activeArtifact := some previewId }
  else ctx1

/-- Stand-in for `JSON.stringify(item, null, 2)` in the `onArtifacts`
fallback: a deterministic rendering of the item's fields (the exact JSON
text is irrelevant to every claim; only that some string is stored). -/
def jsonStringifyItem (i : ArtifactItem) : String :=
  "\x7bfilename: " ++ jsOrS i.filename "null" ++ ", name: "
    ++ jsOrS i.itemName "null" ++ ", type: " ++ jsOrS i.itemType "null"
    ++ ", content: " ++ jsOrS i.content "null" ++ "\x7d"

/-- One `ChatContext` callback applied to the session state, exactly as
registered in `setCallbacks`. -/
def applyCall (ctx : CtxState) : CallbackCall → CtxState
  | .onConnect =>
    { ctx with isConnected := true, connectionStatus := .connected }
  | .onDisconnect =>
    { ctx with isConnected := false, connectionStatus := .disconnected }
  | .onNode name step =>
    let c := { ctx with currentNode := some name }
    match step with
    | some n => { c with executionStep := n }
    | none => c
  | .onClarify q =>
    { ctx with clarificationQuestion := some q, isLoading := false }
  | .onTodos md =>
    addMessage { ctx with todos := some md }
      { text := "📋 **Todo List Generated:**\n\n" ++ md, isUser := false,
        hasArtifact := true, artifactType := some "document",
        artifactContent := some md, artifactLanguage := none,
        artifactFilename := none }
  | .onCode text =>
    addMessage ctx
      { text := "💻 **Code Generated:**", isUser := false,
        hasArtifact := true, artifactType := some "code",
        artifactContent := some text,
        artifactLanguage :=
          some (jsOrS (detectLanguageFromFilename none) "python"),
        artifactFilename := none }
  | .onStdout t =>
    if t.trim != "" then
      addMessage ctx (plainMessage ("✅ **Output:**\n```\n" ++ t ++ "\n```") false)
    else ctx
  | .onStderr t =>
    if t.trim != "" then
      addMessage ctx (plainMessage ("❌ **Error:**\n```\n" ++ t ++ "\n```") false)
    else ctx
  | .onArtifacts items =>
    if items.length > 0 then
      (items.enum).foldl (fun c p =>
        let fname := jsFirst p.2.filename p.2.itemName
        let lang := jsFirst (detectLanguageFromFilename fname) p.2.language
        addMessage c
          { text := "📎 **Artifact " ++ toString (p.1 + 1) ++ ":** "
              ++ jsOrS fname "Generated Artifact",
            isUser := false, hasArtifact := true,
            artifactType := some (jsOrS p.2.itemType "document"),
            artifactContent :=
              some (jsOrS p.2.content (jsonStringifyItem p.2)),
            artifactLanguage := lang, artifactFilename := fname }) ctx
    else ctx
  | .onAnswer t =>
    let c := addMessage ctx (plainMessage t false)
    { c with isLoading := false, currentNode := none }
  | .onError d =>
    let c := addMessage ctx (plainMessage ("⚠️ **Error:** " ++ d) false)
    { c with isLoading := false, currentNode := none }
  | .onFileUploadProgress p n =>
    { ctx with fileUploads := ctx.fileUploads.map (fun u =>
        if u.file.name == n then
          { u with progress := p, status := .uploading } else u) }
  | .onFileUploadComplete n =>
    { ctx with fileUploads := ctx.fileUploads.map (fun u =>
        if u.file.name == n then
          { u with progress := 100, status := .completed } else u) }
  | .onFileUploadError e n =>
    { ctx with fileUploads := ctx.fileUploads.map (fun u =>
        if u.file.name == n then
          { u with status := .error, error := some e } else u) }

/-- A list of callback invocations applied in order. -/
def applyCalls (ctx : CtxState) (calls : List CallbackCall) : CtxState :=
  calls.foldl applyCall ctx

/-- `ChatContext.sendMessage` on the `files = []` path (the only path the
claims exercise): guarded on connectivity, appends the user message, sets
loading, clears any pending clarification, and hands the text to the
service for transmission. -/
def ctxSendMessageNoFiles (ctx : CtxState) (text : String) :
    Except String CtxState :=
  if ctx.isConnected = false then .error "Not connected to AI service"
  else
    let c1 := addMessage ctx (plainMessage text true)
    .ok { c1 with isLoading := true, clarificationQuestion := none }

/-- The context before anything happened (`ChatContextProvider` initial
state). -/
def initialCtx : CtxState :=
  { messages := [], artifacts := [], isLoading := false,
    currentNode := none, executionStep := 0,
    clarificationQuestion := none, todos := none,
    connectionStatus := .disconnected, isConnected := false,
    activeArtifact := none, fileUploads := [], nextId := 0 }

/-! ## The turn grouper (`groupedMessages` in `ChatInterface.tsx`) -/

/-- Substring test on character lists (JS `String.prototype.includes`). -/
def isSubstring (needle : List Char) : List Char → Bool
  | [] => needle.isEmpty
  | c :: rest => needle.isPrefixOf (c :: rest) || isSubstring needle rest

/-- `haystack.includes(needle)` on strings. -/
def strIncludes (haystack needle : String) : Bool :=
  isSubstring needle.data haystack.data

/-- One execution group of `groupedMessages`. -/
structure ExecutionGroup where
  id : String
  userMessage : Option Message
  executionSteps : List Message
  finalMessage : Option Message
  artifacts : List Artifact
  isActive : Bool
deriving DecidableEq, Repr

/-- The grouper's heuristic for an execution-step message: the text
carries one of the five marker strings. -/
def isExecutionStepMsg (m : Message) : Bool :=
  strIncludes m.text "✅ **Output:**" ||
  strIncludes m.text "❌ **Error:**" ||
  strIncludes m.text "💻 **Code Generated:**" ||
  strIncludes m.text "📋 **Todo List Generated:**" ||
  strIncludes m.text "📎 **Artifact"

/-- The grouper's heuristic for a clarification message. -/
def isClarificationMsg (m : Message) : Bool :=
  strIncludes m.text "**Clarification needed:**"

/-- The group the grouper starts from (`id: ''`, everything empty). In
the source this initial object is truthy, so the `currentGroup` null
checks always pass and the dead standalone-group branch never runs. -/
def emptyGroup : ExecutionGroup :=
  { id := "", userMessage := none, executionSteps := [],
    finalMessage := none, artifacts := [], isActive := false }

/-- The body of the `messages.forEach` in `groupedMessages`: threads the
collected groups and the group under construction through one message. -/
def groupStep (arts : List Artifact)
    (acc : List ExecutionGroup × ExecutionGroup) (m : Message) :
    List ExecutionGroup × ExecutionGroup :=
  let groups := acc.1
  let cur := acc.2
  if m.isUser then
    (groups ++ [cur],
      { id := "group-" ++ m.id, userMessage := some m,
        executionSteps := [], finalMessage := none, artifacts := [],
        isActive := false })
  else if isExecutionStepMsg m then
    (groups,
      { cur with
        executionSteps := cur.executionSteps ++ [m],
        isActive := true })
  else if ¬ isClarificationMsg m then
    (groups,
      { cur with
        finalMessage := some m,
        isActive := false,
        artifacts := arts.filter (fun a =>
          cur.executionSteps.any (fun step => a.messageId == some step.id)
            || a.messageId == some m.id) })
  else
    (groups ++
      [{ id := "clarification-" ++ m.id, userMessage := none,
         executionSteps := [], finalMessage := some m, artifacts := [],
         isActive := false }],
      cur)

/-- `groupedMessages`: folds the message log through `groupStep` and then
pushes the trailing group if it holds anything, marking it active when it
has steps but no final message. -/
def groupMessages (messages : List Message) (arts : List Artifact) :
    List ExecutionGroup :=
  let r := messages.foldl (groupStep arts) ([], emptyGroup)
  let cur := r.2
  if cur.userMessage.isSome || cur.executionSteps.length > 0
      || cur.finalMessage.isSome then
    r.1 ++ [if cur.executionSteps.length > 0 && cur.finalMessage.isNone
            then { cur with isActive := true } else cur]
  else r.1

/-- A turn that has closed: it carries a final message and is no longer
active. -/
def isClosedGroup (g : ExecutionGroup) : Bool :=
  g.finalMessage.isSome && !g.isActive

def closedGroups (l : List ExecutionGroup) : List ExecutionGroup :=
  l.filter isClosedGroup

/-- Step counts of the closed turns, in order. -/
def closedStepCounts (l : List ExecutionGroup) : List Nat :=
  (closedGroups l).map (fun g => g.executionSteps.length)

/-- Final-message texts of the closed turns, in order. -/
def closedFinalTexts (l : List ExecutionGroup) : List (Option String) :=
  (closedGroups l).map (fun g => g.finalMessage.map (fun m => m.text))

/-- User-message texts of the closed turns, in order. -/
def closedUserTexts (l : List ExecutionGroup) : List (Option String) :=
  (closedGroups l).map (fun g => g.userMessage.map (fun m => m.text))

/-! ## The C2 scenario: connect, send, two node events, final answer -/

/-- The inbound `node` frame for a node name (no `step` field). -/
def nodeFrame (name : String) : WSMessage :=
  { emptyWSMessage with event := "node", name := name }

/-- The inbound `answer` frame. -/
def answerFrame (text : String) : WSMessage :=
  { emptyWSMessage with event := "answer", text := text }

/-- Session state after: connect succeeds, the user sends
`"build report"`, `node("research")` and `node("forecast")` arrive, then
`answer("done")` arrives — each inbound frame dispatched through
`handleMessage` and its callbacks applied by the `ChatContext` reducer. -/
def scenarioAfterNodes : CtxState :=
  let c1 := applyCall initialCtx .onConnect
  let c2 := (ctxSendMessageNoFiles c1 "build report").toOption.getD c1
  let c3 := applyCalls c2 (handleMessage (nodeFrame "research"))
  applyCalls c3 (handleMessage (nodeFrame "forecast"))

def scenarioCtx : CtxState :=
  applyCalls scenarioAfterNodes (handleMessage (answerFrame "done"))

/-- The turn list the scenario derives. -/
def scenarioGroups : List ExecutionGroup :=
  groupMessages scenarioCtx.messages scenarioCtx.artifacts

/-- Claim C2, counterexample: in the connect → send `"build report"` →
`node("research")` → `node("forecast")` → `answer("done")` scenario, the
derived turn list has exactly one closed turn, but its step list is empty
— not the two `NodeEntered` events the claim requires: the `onNode`
callback only updates `currentNode`/`executionStep` and appends no
message, and the grouper builds steps from marker messages only. -/
theorem claim_c2_counterexample :
    closedStepCounts scenarioGroups = [0] ∧
    (closedStepCounts scenarioGroups == [2]) = false := by
  exact ⟨rfl, rfl⟩

/-- Claim C2 as amended: the scenario yields exactly one closed turn; its
outcome is the final answer `"done"` and its user action is
`"build report"`, but its execution-step list is empty, because
`NodeEntered` events only drive the transient `currentNode` indicator
(visible as `"forecast"` just before the answer arrives and cleared by
it) and are never recorded as steps. -/
theorem claim_c2_amended :
    closedStepCounts scenarioGroups = [0] ∧
    closedFinalTexts scenarioGroups = [some "done"] ∧
    closedUserTexts scenarioGroups = [some "build report"] ∧
    scenarioAfterNodes.currentNode = some "forecast" ∧
    scenarioCtx.currentNode = none := by
  exact ⟨rfl, rfl, rfl, rfl, rfl⟩

/-! ## Deep structural equality of turns (for C8) -/

/-- Deep equality of optional values, by a given deep equality. -/
def beqOpt {α : Type} (eq : α → α → Bool) : Option α → Option α → Bool
  | none, none => true
  | some a, some b => eq a b
  | _, _ => false

/-- Deep equality of lists, element by element. -/
def beqList {α : Type} (eq : α → α → Bool) : List α → List α → Bool
  | [], [] => true
  | a :: as, b :: bs => eq a b && beqList eq as bs
  | _, _ => false

/-- Deep equality of optional strings. -/
def strOptEq : Option String → Option String → Bool :=
  beqOpt (fun a b => a == b)

/-- Field-by-field deep equality of messages. -/
def msgDeepEq (m n : Message) : Bool :=
  m.id == n.id && m.text == n.text && m.isUser == n.isUser &&
  m.timestamp == n.timestamp && m.hasArtifact == n.hasArtifact &&
  strOptEq m.artifactType n.artifactType &&
  strOptEq m.artifactContent n.artifactContent &&
  strOptEq m.artifactLanguage n.artifactLanguage &&
  strOptEq m.artifactFilename n.artifactFilename

/-- Field-by-field deep equality of artifacts. -/
def artifactDeepEq (a b : Artifact) : Bool :=
  a.id == b.id && a.type == b.type && a.title == b.title &&
  a.content == b.content && strOptEq a.language b.language &&
  strOptEq a.filename b.filename && strOptEq a.messageId b.messageId

/-- Field-by-field deep equality of execution groups, recursing into the
member messages and artifacts. -/
def groupDeepEq (g h : ExecutionGroup) : Bool :=
  g.id == h.id && beqOpt msgDeepEq g.userMessage h.userMessage &&
  beqList msgDeepEq g.executionSteps h.executionSteps &&
  beqOpt msgDeepEq g.finalMessage h.finalMessage &&
  beqList artifactDeepEq g.artifacts h.artifacts &&
  g.isActive == h.isActive

/-- Deep equality of two derived turn lists. -/
def groupsDeepEq : List ExecutionGroup → List ExecutionGroup → Bool :=
  beqList groupDeepEq

theorem beqOpt_refl {α : Type} (eq : α → α → Bool)
    (h : ∀ a, eq a a = true) : ∀ o : Option α, beqOpt eq o o = true := by
  intro o
  cases o with
  | none => rfl
  | some a => exact h a

theorem beqList_refl {α : Type} (eq : α → α → Bool)
    (h : ∀ a, eq a a = true) : ∀ l : List α, beqList eq l l = true := by
  intro l
  induction l with
  | nil => rfl
  | cons a as ih => simp [beqList, h a, ih]

theorem strOptEq_refl (o : Option String) : strOptEq o o = true :=
  beqOpt_refl _ (fun a => by simp) o

theorem msgDeepEq_refl (m : Message) : msgDeepEq m m = true := by
  simp [msgDeepEq, strOptEq_refl]

theorem artifactDeepEq_refl (a : Artifact) : artifactDeepEq a a = true := by
  simp [artifactDeepEq, strOptEq_refl]

theorem groupDeepEq_refl (g : ExecutionGroup) : groupDeepEq g g = true := by
  simp [groupDeepEq, beqOpt_refl msgDeepEq msgDeepEq_refl,
    beqList_refl msgDeepEq msgDeepEq_refl,
    beqList_refl artifactDeepEq artifactDeepEq_refl]

/-- Claim C8: the turn grouper is a pure projection — running it twice on
the same message log and artifact list yields deeply (structurally) equal
turn lists. In this embedding the grouper is a function of the log alone,
so it cannot mutate its input; the theorem checks that both runs agree
under the recursive field-by-field deep equality `groupsDeepEq`. -/
theorem claim_c8_grouper_idempotent (msgs : List Message)
    (arts : List Artifact) :
    groupsDeepEq (groupMessages msgs arts) (groupMessages msgs arts)
      = true :=
  beqList_refl groupDeepEq groupDeepEq_refl _

/-! ## Concrete lifecycle runs -/

/-- A freshly constructed service (`new AIWebSocketService()` with the
default base URL and a first generated run id). -/
def initialSvc : SvcState :=
  { ws := none, baseUrl := "ws://localhost:8000", runId := "run_1",
    reconnectAttempts := 0, maxReconnectAttempts := 3,
    reconnectDelay := 1000, uploadQueue := [], pendingReconnects := [],
    nextSockId := 0 }

/-- The service after `connect()` succeeded (`onopen` fired). -/
def connectedSvc : SvcState := (svcOnOpen (connectSvc initialSvc)).1

/-- Service state plus the `ChatContext` state its callbacks drive. -/
structure World where
  svc : SvcState
  ctx : CtxState
deriving DecidableEq, Repr

/-- A close event: the service `onclose` handler runs and its callbacks
are applied to the context. -/
def worldOnClose (code : Nat) (w : World) : World :=
  let r := svcOnClose code w.svc
  { svc := r.1, ctx := applyCalls w.ctx r.2 }

/-- A scheduled reconnect timer fires. -/
def worldFire (w : World) : World :=
  { w with svc := fireReconnect w.svc }

/-- A connected client: socket open, context marked connected. -/
def connectedWorld : World :=
  { svc := connectedSvc, ctx := applyCall initialCtx .onConnect }

/-- One full unclean-disconnect episode in which every reconnect attempt
fails: unclean close (1006), timer fires and reconnects, three times,
then a fourth unclean close with the attempt budget exhausted. -/
def exhaustedWorld : World :=
  worldOnClose 1006 (worldFire (worldOnClose 1006 (worldFire
    (worldOnClose 1006 (worldFire (worldOnClose 1006 connectedWorld))))))

/-- Claim C1, counterexample: after the reconnect budget is exhausted no
further retry is scheduled, but `ConnectionState` does NOT transition to
`failed` — the `connectionStatus` union has no `failed` member at all
(`disconnected | connecting | connected | error`), and at the end of the
exhausted episode the status is the plain `disconnected` that every
ordinary close produces, indistinguishable from a terminal state. -/
theorem claim_c1_counterexample :
    exhaustedWorld.svc.reconnectAttempts = 3 ∧
    exhaustedWorld.svc.pendingReconnects = [] ∧
    exhaustedWorld.ctx.connectionStatus = ConnectionStatus.disconnected ∧
    (ConnectionStatus.disconnected == ConnectionStatus.error) = false := by
  exact ⟨rfl, rfl, rfl, rfl⟩

/-- Claim C1 as amended: on an unclean close (code ≠ 1000) the `onclose`
handler schedules the n-th reconnect with delay 1000 ms × n, issues at
most 3 attempts per disconnect episode, and once the budget is exhausted
schedules nothing further — but the connection status merely remains
`disconnected` (there is no `failed` state). -/
theorem claim_c1_amended (s : SvcState) (ctx : CtxState) (code : Nat)
    (hd : s.reconnectDelay = 1000) (hm : s.maxReconnectAttempts = 3) :
    (code ≠ 1000 → s.reconnectAttempts < 3 →
      scheduledDelayOnClose code s
          = some (1000 * (s.reconnectAttempts + 1)) ∧
        (svcOnClose code s).1.reconnectAttempts
          = s.reconnectAttempts + 1) ∧
    (s.reconnectAttempts ≤ 3 →
      (svcOnClose code s).1.reconnectAttempts ≤ 3) ∧
    (3 ≤ s.reconnectAttempts →
      scheduledDelayOnClose code s = none ∧
        (svcOnClose code s).1.pendingReconnects = s.pendingReconnects) ∧
    (applyCall ctx .onDisconnect).connectionStatus = .disconnected := by
  refine ⟨?_, ?_, ?_, rfl⟩
  · intro hc hlt
    have hpos : scheduledDelayOnClose code s
        = some (s.reconnectDelay * (s.reconnectAttempts + 1)) := by
      simp [scheduledDelayOnClose, hc, hm ▸ hlt]
    refine ⟨by rw [hpos, hd], ?_⟩
    simp [svcOnClose, hpos]
  · intro hle
    by_cases hcond : code ≠ 1000 ∧ s.reconnectAttempts < s.maxReconnectAttempts
    · have hpos : scheduledDelayOnClose code s
          = some (s.reconnectDelay * (s.reconnectAttempts + 1)) := by
        simp [scheduledDelayOnClose, hcond.1, hcond.2]
      simp [svcOnClose, hpos]
      omega
    · have hnone : scheduledDelayOnClose code s = none := by
        simp only [scheduledDelayOnClose, if_neg hcond]
      simp [svcOnClose, hnone]
      exact hle
  · intro hge
    have hnone : scheduledDelayOnClose code s = none := by
      have : ¬ (code ≠ 1000 ∧ s.reconnectAttempts < s.maxReconnectAttempts) := by
        rintro ⟨-, hlt⟩
        omega
      simp only [scheduledDelayOnClose, if_neg this]
    exact ⟨hnone, by simp [svcOnClose, hnone]⟩

/-- Witness for the amended C1: on the concrete connected service the
first unclean close schedules a 1000 ms retry and keeps the attempt count
within budget; on the exhausted episode's final state nothing more is
scheduled; and `onDisconnect` sets `disconnected`. -/
theorem claim_c1_amended_witness :
    scheduledDelayOnClose 1006 connectedSvc = some 1000 ∧
    (svcOnClose 1006 connectedSvc).1.reconnectAttempts ≤ 3 ∧
    scheduledDelayOnClose 1006 exhaustedWorld.svc = none ∧
    (applyCall initialCtx CallbackCall.onDisconnect).connectionStatus
      = ConnectionStatus.disconnected := by
  have h1 := claim_c1_amended connectedSvc initialCtx 1006 rfl rfl
  have h2 := claim_c1_amended exhaustedWorld.svc initialCtx 1006 rfl rfl
  exact ⟨(h1.1 (by decide) (by decide)).1, h1.2.1 (by decide),
    (h2.2.2.1 (by decide)).1, h1.2.2.2⟩

/-- The service after one unclean close on the connected state: one
reconnect timer (delay 1000 ms) is pending. -/
def afterUncleanClose : SvcState := (svcOnClose 1006 connectedSvc).1

/-- ... and the user then calls `disconnect()`. -/
def afterDisconnect : SvcState := disconnectSvc afterUncleanClose

/-- Claim C5, counterexample: `disconnect()` does not cancel the
reconnect timer scheduled by the prior unclean close — no timer handle is
ever stored. The pending timer survives `disconnect()` and, when it
fires, runs `connect()` and opens a fresh socket: an automatic reconnect
does occur after a deliberate disconnect. -/
theorem claim_c5_counterexample :
    afterDisconnect.ws = none ∧
    afterDisconnect.pendingReconnects = [1000] ∧
    (fireReconnect afterDisconnect).pendingReconnects = [] ∧
    (fireReconnect afterDisconnect).ws.isSome = true := by
  exact ⟨rfl, rfl, rfl, rfl⟩

/-- Claim C5 as amended: the clean close code 1000 produced by
`disconnect()` suppresses retry scheduling in the `onclose` handler (no
delay is scheduled, the pending-timer list is unchanged by the close),
but `disconnect()` itself cancels nothing: any reconnect timer already
scheduled from a prior unclean close remains pending and will still
fire. -/
theorem claim_c5_amended (s : SvcState) :
    scheduledDelayOnClose 1000 s = none ∧
    (svcOnClose 1000 s).1.pendingReconnects = s.pendingReconnects ∧
    (disconnectSvc s).pendingReconnects = s.pendingReconnects := by
  have hnone : scheduledDelayOnClose 1000 s = none := by
    simp [scheduledDelayOnClose]
  refine ⟨hnone, by simp [svcOnClose, hnone], ?_⟩
  cases h : s.ws <;> simp [disconnectSvc, h]

/-- The service after `newConversation()` generated the fresh id
`run_2` on the connected state. -/
def afterNewConversation : SvcState := newConversation "run_2" connectedSvc

/-- Claim C7, counterexample: after the session id changes via
`newConversation()`, the old socket — opened under `run_1` and still
`OPEN` — remains in place and is reused: a subsequent send goes out over
it without error. No fresh connection is forced. -/
theorem claim_c7_counterexample :
    afterNewConversation.runId = "run_2" ∧
    afterNewConversation.ws =
      some { sockId := 0,
             url := "ws://localhost:8000/ws/assist?run_id=run_1",
             readyState := ReadyState.OPEN } ∧
    socketOpen afterNewConversation = true ∧
    (svcSendClarification afterNewConversation "hello").2.2 = none := by
  exact ⟨rfl, rfl, rfl, rfl⟩

/-- Claim C7 as amended: `newConversation` only installs the fresh run id
and clears the upload queue; the old socket is left untouched (and keeps
serving sends) — only an explicit later `connect()` opens a socket keyed
by the new id. -/
theorem claim_c7_amended (s : SvcState) (freshId : String) :
    (newConversation freshId s).ws = s.ws ∧
    (newConversation freshId s).runId = freshId ∧
    (newConversation freshId s).uploadQueue = [] ∧
    (connectSvc (newConversation freshId s)).ws =
      some { sockId := s.nextSockId,
             url := s.baseUrl ++ "/ws/assist?run_id=" ++ freshId,
             readyState := ReadyState.CONNECTING } := by
  exact ⟨rfl, rfl, rfl, rfl⟩

/-- Claim C6: whenever the socket is absent or not `OPEN`, `sendMessage`
and `sendClarification` fail fast with the typed
`WebSocket is not connected` error: the state is returned unchanged (so
nothing is queued) and no outbound message or callback is produced. -/
theorem claim_c6_send_fails_fast
    (envText envB64 : JSFile → Except String String) (now : Nat)
    (s : SvcState) (text clarText : String) (files : List JSFile)
    (h : socketOpen s = false) :
    svcSendMessage envText envB64 now s text files
        = (s, [], [], some "WebSocket is not connected") ∧
    svcSendClarification s clarText
        = (s, [], some "WebSocket is not connected") := by
  constructor
  · simp [svcSendMessage, h]
  · simp [svcSendClarification, h]

/-- A file-reader stub for witnesses: every read succeeds with empty
content. -/
def stubRead : JSFile → Except String String := fun _ => .ok ""

/-- Witness for C6 on the freshly constructed service, whose socket is
absent. -/
theorem claim_c6_send_fails_fast_witness :
    socketOpen initialSvc = false ∧
    svcSendMessage stubRead stubRead 0 initialSvc "hi" []
        = (initialSvc, [], [], some "WebSocket is not connected") ∧
    svcSendClarification initialSvc "hi"
        = (initialSvc, [], some "WebSocket is not connected") := by
  have h := claim_c6_send_fails_fast stubRead stubRead 0 initialSvc
    "hi" "hi" [] rfl
  exact ⟨rfl, h.1, h.2⟩

/-- Claim C9: file ingestion is per-file independent — for every batch,
the successfully read files are returned in their original enqueue order
(`successfulUploads` projects exactly the files whose read succeeds, in
order), and the `onFileUploadError` callback fires exactly once per
failing file with that file's name and read error, regardless of the
other files in the batch. -/
theorem claim_c9_per_file_independence
    (envText envB64 : JSFile → Except String String) (now : Nat)
    (s : SvcState) (files : List JSFile) :
    (uploadFiles envText envB64 now s files).2.1
        = successfulUploads envText envB64 files ∧
    uploadErrorCalls (uploadFiles envText envB64 now s files).2.2
        = expectedUploadErrors envText envB64 files := by
  induction files generalizing now s with
  | nil =>
    exact ⟨rfl, rfl⟩
  | cons f rest ih =>
    cases h : readResultOf envText envB64 f with
    | ok c =>
      simp [uploadFiles, processFile, h, uploadErrorCalls,
        successfulUploads, expectedUploadErrors, ih]
    | error e =>
      simp [uploadFiles, processFile, h, uploadErrorCalls,
        successfulUploads, expectedUploadErrors, ih]

/-- Claim C4: an inbound frame that is not valid JSON, or whose `event`
discriminator is unrecognized, is logged and ignored: no callback fires,
the service state (including the socket, which is therefore not closed)
is unchanged, and applying the (empty) callback list leaves the session
state unchanged. -/
theorem claim_c4_unknown_frames_ignored (s : SvcState) (ctx : CtxState)
    (fr : InboundFrame) (h : unrecognizedFrame fr = true) :
    (onMessageStep s fr).2 = [] ∧
    (onMessageStep s fr).1 = s ∧
    applyCalls ctx (onMessageStep s fr).2 = ctx := by
  cases fr with
  | malformed raw => exact ⟨rfl, rfl, rfl⟩
  | parsed m =>
    have h' : recognizedEvents.contains m.event = false := by
      simpa [unrecognizedFrame] using h
    simp only [recognizedEvents, List.contains_cons, List.contains_nil,
      Bool.or_eq_false_iff, beq_eq_false_iff_ne] at h'
    obtain ⟨h1, h2, h3, h4, h5, h6, h7, h8, h9, h10, h11, h12, -⟩ := h'
    have hm : handleMessage m = [] := by
      simp [handleMessage, h1, h2, h3, h4, h5, h6, h7, h8, h9, h10, h11,
        h12]
    refine ⟨hm, rfl, ?_⟩
    simp [onMessageStep, hm, applyCalls]

/-- A frame with a discriminator the client does not know. -/
def bogusFrame : InboundFrame :=
  .parsed { emptyWSMessage with event := "totally-new-event" }

/-- Witness for C4 at a concrete unknown-event frame against the fresh
service and context. -/
theorem claim_c4_unknown_frames_ignored_witness :
    unrecognizedFrame bogusFrame = true ∧
    (onMessageStep initialSvc bogusFrame).2 = [] ∧
    (onMessageStep initialSvc bogusFrame).1 = initialSvc ∧
    applyCalls initialCtx (onMessageStep initialSvc bogusFrame).2
      = initialCtx := by
  have h := claim_c4_unknown_frames_ignored initialSvc initialCtx
    bogusFrame (by rfl)
  exact ⟨rfl, h.1, h.2.1, h.2.2⟩

end ArrowAI
